import Mathlib

/-!
Shallow embedding of `src/moon/src/components/MergeDetail.tsx`, the single
source file of this repository: a React component `MRDetailPage` that shows
a merge-request detail view.  The embedding models

* the component state: `filedata` (`useState([])`), `loadings`
  (`useState<boolean[]>([])`, a JS array written by indexed assignment, so a
  sparse array whose holes read as `undefined`, i.e. falsy), and `error`
  (`useState(null)`);
* the helpers `set_to_loading` / `cancel_loading`, which copy the previous
  loadings array and assign one index;
* the async closure `fetchFileList`, as a function of the state and of the
  outcome of the `fetch`/`res.json()` pipeline (try / catch / finally);
* the async handler `approve_mr`, as a function of the state and of the
  outcome of the POST `fetch`, recording how many times `router.refresh()`
  was called and whether the async function rejected;
* the `useEffect` with dependency array `[mrDetail]`, including the React
  rule that the effect re-runs only when the dependency differs from the
  previous render by reference comparison;
* the returned JSX, as a small tree of UI nodes.

JavaScript values are modelled explicitly: `undefined`/`null` become
`Option`, truthiness of ids follows JS (`0` and the empty string are falsy,
every object is truthy), and a property access on `undefined` is a thrown
`TypeError`, modelled with `Except`.
-/

/-- A JavaScript error value, as far as this component can observe one:
network failures rejected by `fetch`, parse failures rejected by
`res.json()`, and TypeErrors thrown by property access on `undefined`. -/
inductive JsError where
  | networkError (msg : String)
  | parseError (msg : String)
  | typeError (msg : String)
deriving DecidableEq, Repr

/-- The value bound to `mrDetail.id`: in the source it is an opaque string
or integer identifier (it is interpolated into URLs and rendered as a card
title). -/
inductive IdVal where
  | str (s : String)
  | num (n : Int)
deriving DecidableEq, Repr

/-- JS truthiness of an id value: the empty string and the number 0 are
falsy, everything else is truthy. -/
def IdVal.truthy : IdVal → Bool
  | .str s => !(s == "")
  | .num n => !(n == 0)

/-- Truthiness of a possibly-absent id (`undefined`/`null` are falsy), as
tested by the guard `!mrDetail.id`. -/
def idTruthy : Option IdVal → Bool
  | none => false
  | some v => v.truthy

/-- The `mrDetail` prop object: `id` may be `undefined`/`null`, `status` is
a string tag. -/
structure MrDetail where
  id : Option IdVal
  status : String
deriving DecidableEq, Repr

/-- A JS array of booleans written only by indexed assignment: entries are
`some b` where an index was assigned, holes (`undefined`) are `none`. -/
def LoadingsArray : Type := List (Option Bool)

/-- Reading `arr[i]` from a sparse JS array: out-of-range reads and holes
give `undefined` (`none`). -/
def jsArrayGet : List (Option Bool) → Nat → Option Bool
  | [], _ => none
  | x :: _, 0 => x
  | _ :: xs, i + 1 => jsArrayGet xs i

/-- The effect of `const a = [...prev]; a[i] = b; a` on a JS array: assign
in place when the index is in range, otherwise extend the array with holes
up to the index. -/
def jsArraySet : List (Option Bool) → Nat → Bool → List (Option Bool)
  | [], 0, b => [some b]
  | [], i + 1, b => none :: jsArraySet [] i b
  | _ :: xs, 0, b => some b :: xs
  | x :: xs, i + 1, b => x :: jsArraySet xs i b

/-- Reading `loadings[i]` where the result is used as a boolean (the
`loading={...}` props): `undefined` is falsy. -/
def loadingsGet (l : List (Option Bool)) (i : Nat) : Bool :=
  (jsArrayGet l i).getD false

/-- The three `useState` slots of `MRDetailPage`.  `filedata` can hold
`undefined` (`none`) because `setFileData(result.data.data)` stores whatever
that field is. -/
structure ComponentState where
  filedata : Option (List String)
  loadings : List (Option Bool)
  error : Option JsError
deriving DecidableEq, Repr

/-- Initial state on mount: `useState([])`, `useState<boolean[]>([])`,
`useState(null)`. -/
def initialState : ComponentState :=
  { filedata := some [], loadings := [], error := none }

/-- `set_to_loading(index)`: copy the loadings array and assign `true` at
`index`. -/
def set_to_loading (index : Nat) (st : ComponentState) : ComponentState :=
  { st with loadings := jsArraySet st.loadings index true }

/-- `cancel_loading(index)`: copy the loadings array and assign `false` at
`index`. -/
def cancel_loading (index : Nat) (st : ComponentState) : ComponentState :=
  { st with loadings := jsArraySet st.loadings index false }

/-- The inner object of the files response body: `result.data`, whose
`data` field may itself be absent. -/
structure FilesBodyInner where
  data : Option (List String)
deriving DecidableEq, Repr

/-- The parsed JSON body of the GET `/api/mr/{id}/files` response:
`result.data` may be absent (`undefined`). -/
structure FilesBody where
  data : Option FilesBodyInner
deriving DecidableEq, Repr

/-- Outcome of the awaited pipeline inside `fetchFileList`: the `fetch`
call may reject, `res.json()` may reject, or a parsed body is produced. -/
inductive FilesFetchOutcome where
  | fetchReject (e : JsError)
  | jsonReject (e : JsError)
  | jsonOk (body : FilesBody)
deriving DecidableEq, Repr

/-- The `try` block of `fetchFileList`: await the fetch, await `res.json()`,
then read `result.data.data`.  Reading `.data` of `undefined` throws a
TypeError.  Returns the value passed to `setFileData` or the thrown error. -/
def filesTryBody : FilesFetchOutcome → Except JsError (Option (List String))
  | .fetchReject e => .error e
  | .jsonReject e => .error e
  | .jsonOk body =>
      match body.data with
      | none => .error (.typeError "Cannot read properties of undefined")
      | some inner => .ok inner.data

/-- `fetchFileList`: `set_to_loading(2)`, then the `try` block
(`setFileData` on success, `setError(err)` in `catch`), then
`cancel_loading(2)` in `finally`.  The catch clause is exhaustive, so the
async function itself never rejects: the result is always `Except.ok`. -/
def fetchFileList (st : ComponentState) (o : FilesFetchOutcome) :
    Except JsError ComponentState :=
  let st1 := set_to_loading 2 st
  let st2 :=
    match filesTryBody o with
    | .ok fd => { st1 with filedata := fd }
    | .error e => { st1 with error := some e }
  .ok (cancel_loading 2 st2)

/-- A `fetch` Response object, of which the component reads only `ok`.  As
an object it is always truthy, which is what `if (res)` tests. -/
structure JsResponse where
  ok : Bool
deriving DecidableEq, Repr

/-- JS truthiness of a Response object: objects are always truthy. -/
def JsResponse.truthy (_ : JsResponse) : Bool := true

/-- Outcome of the awaited POST `fetch` inside `approve_mr`: either the
promise rejects (network failure, no response object), or it resolves with
a Response object. -/
inductive MergeFetchOutcome where
  | fetchReject (e : JsError)
  | resolved (res : JsResponse)
deriving DecidableEq, Repr

/-- What one run of `approve_mr` leaves behind: the final component state,
the number of `router.refresh()` calls, and the rejection of the async
function when the awaited fetch threw (nothing in the component catches
it). -/
structure MergeRunResult where
  finalState : ComponentState
  refreshCalls : Nat
  unhandledRejection : Option JsError
deriving DecidableEq, Repr

/-- `approve_mr(index, id)`: `set_to_loading(index)`, await the POST fetch.
If the fetch rejects, the async function rejects there and then: no later
statement runs, so the slot is never cleared.  If it resolves,
`if (res) cancel_loading(index)` runs (a Response object is truthy), and
`if (res.ok) router.refresh()` runs on a 2xx status. -/
def approve_mr (index : Nat) (st : ComponentState) (o : MergeFetchOutcome) :
    MergeRunResult :=
  let st1 := set_to_loading index st
  match o with
  | .fetchReject e =>
      { finalState := st1, refreshCalls := 0, unhandledRejection := some e }
  | .resolved res =>
      let st2 := if res.truthy then cancel_loading index st1 else st1
      { finalState := st2
        refreshCalls := if res.ok then 1 else 0
        unhandledRejection := none }

/-- The guard at the end of the effect body:
`if (!mrDetail || !mrDetail.id) return;` — the fetch is issued only when
the prop is present and its id is truthy. -/
def effectRunsFetch (prop : Option MrDetail) : Bool :=
  match prop with
  | none => false
  | some d => idTruthy d.id

/-- Number of file-list fetch calls issued by one run of the effect body. -/
def effectFetchCount (prop : Option MrDetail) : Nat :=
  if effectRunsFetch prop then 1 else 0

/-- A `mrDetail` prop value together with its JS object identity (`ref`):
React compares effect dependencies by `Object.is`, which for objects is
reference equality. -/
structure SummaryObj where
  ref : Nat
  detail : MrDetail
deriving DecidableEq, Repr

/-- `Object.is` on the dependency slot: `undefined` equals `undefined`,
objects are compared by reference. -/
def objIs : Option SummaryObj → Option SummaryObj → Bool
  | none, none => true
  | some a, some b => a.ref == b.ref
  | _, _ => false

/-- Fetches issued by the effect when it fires for a given rendered prop. -/
def effectFires (prop : Option SummaryObj) : Nat :=
  effectFetchCount (prop.map (·.detail))

/-- Fetch calls issued over the renders after the first: the effect with
dependency array `[mrDetail]` re-runs only when the dependency is not
`Object.is`-equal to the one of the previous render. -/
def rendersFetchCountAux : Option SummaryObj → List (Option SummaryObj) → Nat
  | _, [] => 0
  | prev, cur :: rest =>
      (if objIs prev cur then 0 else effectFires cur) +
        rendersFetchCountAux cur rest

/-- Total file-list fetch calls issued across a sequence of renders of the
component, each render supplying a (possibly absent) `mrDetail` object.
The effect always runs on the first render. -/
def rendersFetchCount : List (Option SummaryObj) → Nat
  | [] => 0
  | first :: rest => effectFires first + rendersFetchCountAux first rest

/-- The rendered UI, reduced to the nodes the spec talks about: Cards with
a title and children, the merge Button with its loading flag, the file List
with its loading flag and its rendered entries, and the plain link in the
inner card's `extra` slot. -/
inductive UiNode where
  | card (title : Option IdVal) (children : List UiNode)
  | button (label : String) (loading : Bool)
  | uiList (header : String) (loading : Bool) (entries : List String)
  | link (href : String) (label : String)
deriving Repr

/-- The JSX returned by `MRDetailPage` once `mrDetail` is a real object:
an outer Card; inside it the merge Button exactly when
`mrDetail.status === "open"` (JSX renders `false` as nothing), then the
inner Card titled `mrDetail.id` holding the file List, whose entries are
the elements of `filedata` in array order (antd renders a missing
`dataSource` as no rows). -/
def renderWithSummary (d : MrDetail) (st : ComponentState) : UiNode :=
  .card (some (.str "Merge Request Detail Page"))
    ((if d.status == "open" then
        [UiNode.button "Merge MR" (loadingsGet st.loadings 1)]
      else []) ++
     [UiNode.card d.id
        [UiNode.link "#" "More",
         UiNode.uiList "Change File List" (loadingsGet st.loadings 2)
           ((st.filedata).getD [])]])

/-- The render of `MRDetailPage` as a whole: the JSX evaluates
`mrDetail.status` and `mrDetail.id`, so when the prop is `undefined` or
`null` the render itself throws a TypeError before anything is shown. -/
def MRDetailPage (mrDetail : Option MrDetail) (st : ComponentState) :
    Except JsError UiNode :=
  match mrDetail with
  | none => .error (.typeError "Cannot read properties of undefined")
  | some d => .ok (renderWithSummary d st)

mutual

/-- Whether a rendered tree contains the merge action control (the Button
labelled "Merge MR"). -/
def hasMergeButton : UiNode → Bool
  | .button label _ => label == "Merge MR"
  | .card _ cs => hasMergeButtonList cs
  | _ => false

/-- `hasMergeButton` over a list of sibling nodes. -/
def hasMergeButtonList : List UiNode → Bool
  | [] => false
  | c :: cs => hasMergeButton c || hasMergeButtonList cs

end

mutual

/-- The entries rendered by file-List controls in a tree, in order. -/
def fileEntriesOf : UiNode → List String
  | .uiList _ _ es => es
  | .card _ cs => fileEntriesOfList cs
  | _ => []

/-- `fileEntriesOf` over a list of sibling nodes. -/
def fileEntriesOfList : List UiNode → List String
  | [] => []
  | c :: cs => fileEntriesOf c ++ fileEntriesOfList cs

end

/-- Children of a Card node. -/
def cardChildren : UiNode → List UiNode
  | .card _ cs => cs
  | _ => []

/-- The title of a node when it is a Card. -/
def cardTitle : UiNode → Option (Option IdVal)
  | .card t _ => some t
  | _ => none

/-- The title of the nested detail panel: the first Card among the root's
children. -/
def innerDetailTitle (root : UiNode) : Option (Option IdVal) :=
  ((cardChildren root).filterMap cardTitle).head?

/-! ## Lemmas about the sparse loadings array -/

/-- Reading back the index just assigned gives the assigned value. -/
theorem jsArrayGet_set_self (l : List (Option Bool)) (i : Nat) (b : Bool) :
    jsArrayGet (jsArraySet l i b) i = some b := by
  induction l generalizing i with
  | nil =>
    induction i with
    | zero => rfl
    | succ n ih => simpa [jsArraySet, jsArrayGet] using ih
  | cons x xs ih =>
    cases i with
    | zero => rfl
    | succ n => simpa [jsArraySet, jsArrayGet] using ih n

/-- Assigning one index leaves every other index unchanged. -/
theorem jsArrayGet_set_ne (l : List (Option Bool)) (i j : Nat) (b : Bool)
    (h : j ≠ i) : jsArrayGet (jsArraySet l i b) j = jsArrayGet l j := by
  induction l generalizing i j with
  | nil =>
    induction i generalizing j with
    | zero =>
      cases j with
      | zero => exact absurd rfl h
      | succ m => simp [jsArraySet, jsArrayGet]
    | succ n ih =>
      cases j with
      | zero => rfl
      | succ m =>
        simpa [jsArraySet, jsArrayGet] using ih m (fun hh => h (by omega))
  | cons x xs ihl =>
    cases i with
    | zero =>
      cases j with
      | zero => exact absurd rfl h
      | succ m => rfl
    | succ n =>
      cases j with
      | zero => rfl
      | succ m =>
        simpa [jsArraySet, jsArrayGet] using ihl n m (fun hh => h (by omega))

/-- Truthy read of the index just assigned. -/
theorem loadingsGet_set_self (l : List (Option Bool)) (i : Nat) (b : Bool) :
    loadingsGet (jsArraySet l i b) i = b := by
  simp [loadingsGet, jsArrayGet_set_self]

/-- Truthy read of an index other than the one assigned. -/
theorem loadingsGet_set_ne (l : List (Option Bool)) (i j : Nat) (b : Bool)
    (h : j ≠ i) : loadingsGet (jsArraySet l i b) j = loadingsGet l j := by
  simp [loadingsGet, jsArrayGet_set_ne l i j b h]

example : loadingsGet ([] : List (Option Bool)) 2 = false := by decide
example : loadingsGet (jsArraySet [] 2 true) 2 = true := by decide
example : loadingsGet (jsArraySet [] 2 true) 1 = false := by decide

/-! ## Helper lemmas about the operations -/

/-- Whatever the outcome, `fetchFileList` resolves (never rejects) and its
final loadings array is the initial one with slot 2 assigned `true` and
then `false`. -/
theorem fetchFileList_loadings (st : ComponentState) (o : FilesFetchOutcome) :
    ∃ st2, fetchFileList st o = Except.ok st2 ∧
      st2.loadings = jsArraySet (jsArraySet st.loadings 2 true) 2 false := by
  refine ⟨_, rfl, ?_⟩
  simp only [fetchFileList, set_to_loading, cancel_loading]
  cases filesTryBody o <;> rfl

/-! ## The claims -/

/-- C1: whenever the POST of `approve_mr` yields a response object, the
busy flag of the given slot is cleared regardless of the status code, the
parent refresh is requested exactly once on a 2xx (`res.ok`) response and
never on a non-2xx response, and no error is surfaced (the async function
does not reject). -/
theorem approve_mr_response_clears_busy_and_refreshes_iff_ok
    (idx : Nat) (st : ComponentState) (res : JsResponse) :
    loadingsGet (approve_mr idx st (.resolved res)).finalState.loadings idx
        = false ∧
    (approve_mr idx st (.resolved res)).refreshCalls
        = (if res.ok then 1 else 0) ∧
    (approve_mr idx st (.resolved res)).unhandledRejection = none := by
  refine ⟨?_, rfl, rfl⟩
  simp [approve_mr, JsResponse.truthy, cancel_loading, set_to_loading,
    loadingsGet_set_self]

/-- C2: when the file-list fetch rejects, the component stores the error
value, leaves the file list unchanged, still clears loading slot 2 via the
`finally` cleanup, and the async function resolves (no exception escapes
the component). -/
theorem fetchFileList_reject_stores_error_keeps_files
    (st : ComponentState) (e : JsError) :
    ∃ st2, fetchFileList st (.fetchReject e) = Except.ok st2 ∧
      st2.error = some e ∧ st2.filedata = st.filedata ∧
      loadingsGet st2.loadings 2 = false := by
  refine ⟨_, rfl, rfl, rfl, ?_⟩
  simp [cancel_loading, loadingsGet_set_self]

/-- C3: loading slot 2 is busy strictly between start and completion of a
file-list fetch — `true` in the state produced before the request is
issued, `false` in the final state for every outcome (success or failure),
and unset slots of the initial loadings array read as falsy. -/
theorem loading_slot2_busy_strictly_during_fetch
    (st : ComponentState) (o : FilesFetchOutcome) (i : Nat) :
    loadingsGet (set_to_loading 2 st).loadings 2 = true ∧
    (∃ st2, fetchFileList st o = Except.ok st2 ∧
      loadingsGet st2.loadings 2 = false) ∧
    loadingsGet initialState.loadings i = false := by
  refine ⟨?_, ?_, ?_⟩
  · simp [set_to_loading, loadingsGet_set_self]
  · obtain ⟨st2, hrun, hload⟩ := fetchFileList_loadings st o
    exact ⟨st2, hrun, by simp [hload, loadingsGet_set_self]⟩
  · simp [initialState, loadingsGet, jsArrayGet]

/-- C4: when the POST of `approve_mr` throws (no response object), the
busy flag of slot 1 is left set, the rejection propagates unhandled past
the component, no refresh happens, and a later file-list fetch (the only
other writer of the loadings array, which touches only slot 2) still
leaves slot 1 busy. -/
theorem approve_mr_reject_leaves_slot_stuck
    (st : ComponentState) (e : JsError) (o : FilesFetchOutcome) :
    loadingsGet (approve_mr 1 st (.fetchReject e)).finalState.loadings 1
        = true ∧
    (approve_mr 1 st (.fetchReject e)).unhandledRejection = some e ∧
    (approve_mr 1 st (.fetchReject e)).refreshCalls = 0 ∧
    (∃ st2,
      fetchFileList (approve_mr 1 st (.fetchReject e)).finalState o
          = Except.ok st2 ∧
      loadingsGet st2.loadings 1 = true) := by
  refine ⟨?_, rfl, rfl, ?_⟩
  · simp [approve_mr, set_to_loading, loadingsGet_set_self]
  · obtain ⟨st2, hrun, hload⟩ :=
      fetchFileList_loadings (approve_mr 1 st (.fetchReject e)).finalState o
    refine ⟨st2, hrun, ?_⟩
    rw [hload, loadingsGet_set_ne _ _ _ _ (by omega),
      loadingsGet_set_ne _ _ _ _ (by omega)]
    simp [approve_mr, set_to_loading, loadingsGet_set_self]

/-- C5: a successful file-list fetch whose JSON body is
`\x7bdata: \x7bdata: xs\x7d\x7d` replaces the whole file list with `xs`,
and the rendered list control shows exactly one entry per element of `xs`,
in array order. -/
theorem fetch_success_replaces_list_and_renders_entries
    (st : ComponentState) (xs : List String) (d : MrDetail) :
    ∃ st2,
      fetchFileList st (.jsonOk { data := some { data := some xs } })
          = Except.ok st2 ∧
      st2.filedata = some xs ∧
      fileEntriesOf (renderWithSummary d st2) = xs := by
  refine ⟨_, rfl, rfl, ?_⟩
  cases h : d.status == "open" <;>
    simp [renderWithSummary, h, fileEntriesOf, fileEntriesOfList,
      filesTryBody, cancel_loading, set_to_loading]

/-- C6: the merge action control is rendered if and only if the summary's
status is exactly "open". -/
theorem merge_button_rendered_iff_status_open
    (d : MrDetail) (st : ComponentState) :
    hasMergeButton (renderWithSummary d st) = (d.status == "open") := by
  cases h : d.status == "open" <;>
    simp [renderWithSummary, h, hasMergeButton, hasMergeButtonList]

/-- C7: with no summary at all, or with a summary whose identifier is
missing (`undefined`/`null`), the effect issues zero file-list fetch
calls. -/
theorem no_fetch_without_summary_or_id (status : String) :
    effectFetchCount none = 0 ∧
    effectFetchCount (some { id := none, status := status }) = 0 := by
  exact ⟨rfl, rfl⟩

/-- A summary object with reference id 0 used as a concrete render input. -/
def sampleSummaryA : SummaryObj :=
  { ref := 0, detail := { id := some (.num 5), status := "open" } }

/-- A structurally identical summary object with a different reference. -/
def sampleSummaryB : SummaryObj :=
  { ref := 1, detail := { id := some (.num 5), status := "open" } }

/-- C8 counterexample: supplying the very same summary object (same
reference) on two successive renders issues only one fetch, not two —
React skips the effect when the dependency is reference-equal to the
previous one. -/
theorem same_reference_twice_fetches_once :
    rendersFetchCount [some sampleSummaryA, some sampleSummaryA] = 1 ∧
    rendersFetchCount [some sampleSummaryA, some sampleSummaryA] ≠ 2 := by
  exact ⟨by decide, by decide⟩

/-- C8 amended: re-supplying a structurally identical but referentially
distinct summary object with a truthy id triggers the fetch twice (there
is no content-based memoization); only reference equality of the
dependency suppresses a re-run. -/
theorem distinct_reference_summary_fetches_twice
    (a b : SummaryObj) (h : (a.ref == b.ref) = false)
    (ha : effectRunsFetch (some a.detail) = true)
    (hb : effectRunsFetch (some b.detail) = true) :
    rendersFetchCount [some a, some b] = 2 := by
  simp [rendersFetchCount, rendersFetchCountAux, effectFires, objIs, h,
    effectFetchCount, ha, hb]

/-- Witness for the C8 amended theorem at two concrete summary objects
with equal content and distinct references. -/
theorem distinct_reference_summary_fetches_twice_witness :
    (sampleSummaryA.ref == sampleSummaryB.ref) = false ∧
    effectRunsFetch (some sampleSummaryA.detail) = true ∧
    rendersFetchCount [some sampleSummaryA, some sampleSummaryB] = 2 :=
  ⟨by decide, by decide,
    distinct_reference_summary_fetches_twice sampleSummaryA sampleSummaryB
      (by decide) (by decide) (by decide)⟩

/-- C9 counterexample: with no summary at all the component does not
render — the JSX reads `mrDetail.status` and throws a TypeError. -/
theorem render_without_summary_throws :
    MRDetailPage none initialState =
      Except.error (JsError.typeError "Cannot read properties of undefined") := by
  rfl

/-- C9 amended: for every supplied summary object — even one whose
identifier is missing — the component renders without raising an error,
the nested detail panel renders titled with the summary's identifier, and
a summary without an identifier silently disables the file-list fetch;
only the complete absence of the summary object makes the render itself
throw. -/
theorem render_with_summary_always_succeeds
    (d : MrDetail) (st : ComponentState) :
    (∃ t, MRDetailPage (some d) st = Except.ok t ∧
       innerDetailTitle t = some d.id) ∧
    effectFetchCount (some { id := none, status := d.status }) = 0 := by
  refine ⟨⟨_, rfl, ?_⟩, rfl⟩
  cases h : d.status == "open" <;>
    simp [renderWithSummary, h, innerDetailTitle, cardChildren, cardTitle]

/-- C10: a resolved files fetch whose body lacks `data.data` (the `data`
field is absent, so the property read throws a TypeError) or whose body
fails to parse (`res.json()` rejects) behaves exactly like a fetch
failure: the thrown error is stored, the file list is unchanged, slot 2 is
cleared, and the async function resolves. -/
theorem fetch_malformed_body_treated_as_failure
    (st : ComponentState) (e : JsError) :
    (∃ st2, fetchFileList st (.jsonOk { data := none }) = Except.ok st2 ∧
       st2.error = some (.typeError "Cannot read properties of undefined") ∧
       st2.filedata = st.filedata ∧ loadingsGet st2.loadings 2 = false) ∧
    (∃ st2, fetchFileList st (.jsonReject e) = Except.ok st2 ∧
       st2.error = some e ∧ st2.filedata = st.filedata ∧
       loadingsGet st2.loadings 2 = false) := by
  constructor
  · refine ⟨_, rfl, rfl, rfl, ?_⟩
    simp [cancel_loading, loadingsGet_set_self]
  · refine ⟨_, rfl, rfl, rfl, ?_⟩
    simp [cancel_loading, loadingsGet_set_self]
